import Mathlib

/-!
Verification development for the FrontierFund mobile client.

The definitions below are a shallow embedding of the TypeScript sources:

* `src/api/transactions.ts` — the transaction API wrappers (request shapes
  and response handling);
* `src/app/(tabs)/ranch.tsx` — the ranch screen (proposal fetching and
  rendering, vote and execute handlers);
* `src/unnamed/part_001` — the `ProposalCard` component;
* `src/components/transaction-card.tsx` — the `TransactionCard` component;
* `src/unnamed/part_002` — the `RanchPieChart` component;
* `src/unnamed/part_005` — the `BalanceSection` component;
* `src/components/StockTradingModal.tsx` — `CreateTransactionModal.handleSubmit`;
* `src/contexts/AuthContext.tsx` — the auth provider state machine.

Modelling conventions: JavaScript numbers are modelled as `ℚ` (the code
performs no floating-point-specific operations on the values the claims
are about); a JS object used as a string-keyed map is modelled as an
association list `List (String × _)`; a JS value that may be `null` or an
absent field is an `Option`; JS truthiness of a string is captured
explicitly (both `null` and the empty string are falsy); an async function
is modelled as a pure function from the results of its awaited calls to
its observable effects.
-/

namespace FrontierFund

/-- The two vote values of `Record<string, 'approve' | 'reject'>`
    in `src/api/transactions.ts`. -/
inductive Vote
  | approve
  | reject
deriving DecidableEq, Repr

/-- The transaction status union type
    `'pending' | 'approved' | 'rejected' | 'executed'`. -/
inductive TxStatus
  | pending
  | approved
  | rejected
  | executed
deriving DecidableEq, Repr

/-- The `Transaction` interface of `src/api/transactions.ts`, extended with
    the optional `proposedBy` and `transactionType` fields read by
    `ProposalCard` (`src/unnamed/part_001`). The `votes` object is modelled
    as an association list from user id to vote. -/
structure Transaction where
  transactionID : String
  groupID : String
  userID : String
  amount : String
  description : String
  status : TxStatus
  votes : List (String × Vote)
  createdAt : String
  executedAt : Option String := none
  proposedBy : Option String := none
  transactionType : Option String := none
deriving DecidableEq, Repr

/-- JS lookup `votes[uid]` on the votes object: first entry with the key,
    if any. -/
def votesLookup (votes : List (String × Vote)) (uid : String) : Option Vote :=
  (votes.find? (fun p => decide (p.1 = uid))).map Prod.snd

/-- `Object.values(votes).filter((v) => v === 'approve').length` — the
    client-side approval tally used by all three proposal renderers. -/
def countApprove (votes : List (String × Vote)) : Nat :=
  (votes.filter (fun p => decide (p.2 = Vote.approve))).length

/-- `Object.values(votes).filter((v) => v === 'reject').length` — the
    client-side rejection tally used by all three proposal renderers. -/
def countReject (votes : List (String × Vote)) : Nat :=
  (votes.filter (fun p => decide (p.2 = Vote.reject))).length

/-! ## API client layer (`src/api/transactions.ts`) -/

/-- `const API_BASE_URL = 'http://localhost:8080'`. -/
def API_BASE_URL : String := "http://localhost:8080"

/-- The `CreateTransactionRequest` interface. -/
structure CreateTransactionRequest where
  groupId : String
  amount : ℚ
  description : String
deriving DecidableEq, Repr

/-- The body passed to `fetch`: either absent, the JSON serialization of a
    `CreateTransactionRequest`, or the JSON object `{ vote }`. -/
inductive RequestBody
  | empty
  | createTx (r : CreateTransactionRequest)
  | voteBody (v : Vote)
deriving DecidableEq, Repr

/-- The observable shape of a `fetch` call: URL, method (a `fetch` with no
    `method` option issues a GET), headers and body. -/
structure HttpRequest where
  url : String
  method : String
  headers : List (String × String)
  body : RequestBody
deriving DecidableEq, Repr

/-- Request issued by `getGroupTransactions(groupId, token)`. -/
def getGroupTransactionsRequest (groupId token : String) : HttpRequest :=
  { url := API_BASE_URL ++ "/transactions?groupId=" ++ groupId
    method := "GET"
    headers := [("Authorization", "Bearer " ++ token)]
    body := RequestBody.empty }

/-- Request issued by `getTransactionHistory(token)`. -/
def getTransactionHistoryRequest (token : String) : HttpRequest :=
  { url := API_BASE_URL ++ "/transactions/history/me"
    method := "GET"
    headers := [("Authorization", "Bearer " ++ token)]
    body := RequestBody.empty }

/-- Request issued by `getTransaction(transactionId, token)`. -/
def getTransactionRequest (transactionId token : String) : HttpRequest :=
  { url := API_BASE_URL ++ "/transactions/" ++ transactionId
    method := "GET"
    headers := [("Authorization", "Bearer " ++ token)]
    body := RequestBody.empty }

/-- Request issued by `createTransaction(request, token)`. -/
def createTransactionHttpRequest (request : CreateTransactionRequest)
    (token : String) : HttpRequest :=
  { url := API_BASE_URL ++ "/transactions"
    method := "POST"
    headers := [("Content-Type", "application/json"),
                ("Authorization", "Bearer " ++ token)]
    body := RequestBody.createTx request }

/-- Request issued by `voteOnTransaction(transactionId, vote, token)`. -/
def voteOnTransactionRequest (transactionId : String) (vote : Vote)
    (token : String) : HttpRequest :=
  { url := API_BASE_URL ++ "/transactions/" ++ transactionId ++ "/vote"
    method := "POST"
    headers := [("Content-Type", "application/json"),
                ("Authorization", "Bearer " ++ token)]
    body := RequestBody.voteBody vote }

/-- Request issued by `executeTransaction(transactionId, token)`. -/
def executeTransactionRequest (transactionId token : String) : HttpRequest :=
  { url := API_BASE_URL ++ "/transactions/" ++ transactionId ++ "/execute"
    method := "POST"
    headers := [("Authorization", "Bearer " ++ token)]
    body := RequestBody.empty }

/-- The JSON body of a non-ok response, as parsed by the wrappers: an
    object whose `detail` field may be absent (`none`). -/
structure ErrorBody where
  detail : Option String
deriving DecidableEq, Repr

/-- Result of a `fetch` as the wrappers observe it: `response.ok` selects
    whether the parsed JSON body is the success payload `α` or an error
    body. -/
inductive ApiResponse (α : Type)
  | ok (payload : α)
  | err (body : ErrorBody)
deriving DecidableEq, Repr

/-- JS `error.detail || fallback`: the fallback is used when `detail` is
    absent or falsy (the empty string). -/
def jsOrElse (detail : Option String) (fallback : String) : String :=
  match detail with
  | some s => if s = "" then fallback else s
  | none => fallback

/-- Payload `{ transactions: Transaction[] }`. -/
structure TransactionsPayload where
  transactions : List Transaction
deriving DecidableEq, Repr

/-- Payload `{ transaction: Transaction }`. -/
structure TransactionPayload where
  transaction : Transaction
deriving DecidableEq, Repr

/-- Payload `{ transactionId, message, status }` returned by the create
    endpoint. -/
structure CreateTransactionResult where
  transactionId : String
  message : String
  status : String
deriving DecidableEq, Repr

/-- The `VoteResponse` interface. -/
structure VoteResponse where
  message : String
  status : String
  votes : List (String × String)
  approveCount : ℚ
  rejectCount : ℚ
  totalMembers : ℚ
deriving DecidableEq, Repr

/-- The `ExecuteResponse` interface. -/
structure ExecuteResponse where
  message : String
  transactionId : String
  amount : ℚ
  previousBalance : ℚ
  newBalance : ℚ
  status : String
deriving DecidableEq, Repr

/-- Response handling of `getGroupTransactions`: on a non-ok response it
    throws `error.detail || 'Failed to fetch transactions'`, otherwise it
    returns `data.transactions`. -/
def getGroupTransactions (resp : ApiResponse TransactionsPayload) :
    Except String (List Transaction) :=
  match resp with
  | .err e => .error (jsOrElse e.detail "Failed to fetch transactions")
  | .ok data => .ok data.transactions

/-- Response handling of `getTransactionHistory`. -/
def getTransactionHistory (resp : ApiResponse TransactionsPayload) :
    Except String (List Transaction) :=
  match resp with
  | .err e => .error (jsOrElse e.detail "Failed to fetch transaction history")
  | .ok data => .ok data.transactions

/-- Response handling of `getTransaction`: returns `data.transaction`. -/
def getTransaction (resp : ApiResponse TransactionPayload) :
    Except String Transaction :=
  match resp with
  | .err e => .error (jsOrElse e.detail "Failed to fetch transaction")
  | .ok data => .ok data.transaction

/-- Response handling of `createTransaction`: returns `response.json()`. -/
def createTransaction (resp : ApiResponse CreateTransactionResult) :
    Except String CreateTransactionResult :=
  match resp with
  | .err e => .error (jsOrElse e.detail "Failed to create transaction")
  | .ok data => .ok data

/-- Response handling of `voteOnTransaction`: returns `response.json()`. -/
def voteOnTransaction (resp : ApiResponse VoteResponse) :
    Except String VoteResponse :=
  match resp with
  | .err e => .error (jsOrElse e.detail "Failed to vote on transaction")
  | .ok data => .ok data

/-- Response handling of `executeTransaction`: returns `response.json()`. -/
def executeTransaction (resp : ApiResponse ExecuteResponse) :
    Except String ExecuteResponse :=
  match resp with
  | .err e => .error (jsOrElse e.detail "Failed to execute transaction")
  | .ok data => .ok data

/-! ## Proposal renderers

`ProposalCard` (`src/unnamed/part_001`), the proposal list of `RanchScreen`
(`src/app/(tabs)/ranch.tsx`, lines 994-1116) and `TransactionCard`
(`src/components/transaction-card.tsx`) each decide from the transaction
record which controls to render. -/

/-- `ProposalCard`: `Object.keys(proposal.votes).includes(currentUserId)`. -/
def proposalCardHasVoted (t : Transaction) (uid : String) : Bool :=
  t.votes.any (fun p => decide (p.1 = uid))

/-- `ProposalCard` renders the voted-text block exactly when `hasVoted`. -/
def proposalCardShowVotedText (t : Transaction) (uid : String) : Bool :=
  proposalCardHasVoted t uid

/-- `ProposalCard` renders the approve/reject buttons on the branch
    `hasVoted ? votedText : proposal.status === "pending" ? buttons : null`. -/
def proposalCardShowVoteButtons (t : Transaction) (uid : String) : Bool :=
  !proposalCardHasVoted t uid && decide (t.status = TxStatus.pending)

/-- `ProposalCard` renders the execute button on the guard
    `proposal.status === "approved" && ...`. -/
def proposalCardShowExecute (t : Transaction) : Bool :=
  decide (t.status = TxStatus.approved)

/-- `ProposalCard` vote tallies (`approvalCount`, `rejectCount`), computed
    by filtering the votes object. -/
structure ProposalCardVoteInfo where
  approvalCount : Nat
  rejectCount : Nat
deriving DecidableEq, Repr

/-- The tallies `ProposalCard` displays for a proposal. -/
def proposalCardVoteCounts (t : Transaction) : ProposalCardVoteInfo :=
  { approvalCount := countApprove t.votes
    rejectCount := countReject t.votes }

/-- `RanchScreen`: `proposal.votes?.[currentUserId || ""]` — the current
    user id is `null` before auth loads, in which case the key `""` is
    looked up. -/
def ranchUserVote (t : Transaction) (currentUserId : Option String) :
    Option Vote :=
  votesLookup t.votes (currentUserId.getD "")

/-- `RanchScreen` renders the voted-text block when `userVote` is truthy
    (both possible vote strings are truthy, so this is definedness). -/
def ranchShowVotedText (t : Transaction) (currentUserId : Option String) :
    Bool :=
  (ranchUserVote t currentUserId).isSome

/-- `RanchScreen` renders the approve/reject buttons on the branch
    `userVote ? votedText : proposal.status === "pending" ? buttons : null`. -/
def ranchShowVoteButtons (t : Transaction) (currentUserId : Option String) :
    Bool :=
  !(ranchUserVote t currentUserId).isSome
    && decide (t.status = TxStatus.pending)

/-- `RanchScreen` renders the execute button on the guard
    `proposal.status === "approved" && ...`. -/
def ranchShowExecute (t : Transaction) : Bool :=
  decide (t.status = TxStatus.approved)

/-- The vote-info line of a `RanchScreen` proposal card: tallies computed
    from the votes object, the quorum threshold
    `votesNeeded = Math.ceil(memberCount / 2)`, the figure
    `votesRemaining = Math.max(0, votesNeeded - approveCount)`, and the
    trailing status message. -/
structure RanchVoteInfo where
  approveCount : Nat
  rejectCount : Nat
  votesNeeded : ℤ
  votesRemaining : ℤ
  statusMessage : String
deriving DecidableEq, Repr

/-- The vote-info line `RanchScreen` displays for a proposal, built from the
    transaction record and the member count of the group (lines 994-1064 of
    `ranch.tsx`). -/
def ranchVoteInfo (t : Transaction) (memberCount : Nat) : RanchVoteInfo :=
  let approveCount := countApprove t.votes
  let rejectCount := countReject t.votes
  let votesNeeded : ℤ := ⌈(memberCount : ℚ) / 2⌉
  let votesRemaining : ℤ := max 0 (votesNeeded - approveCount)
  { approveCount := approveCount
    rejectCount := rejectCount
    votesNeeded := votesNeeded
    votesRemaining := votesRemaining
    statusMessage :=
      if t.status = TxStatus.pending then
        " " ++ toString votesRemaining ++ " more vote"
          ++ (if votesRemaining ≠ 1 then "s" else "") ++ " needed"
      else if t.status = TxStatus.approved then " Ready to execute!"
      else if t.status = TxStatus.executed then " Funds added to ranch!"
      else " Not approved" }

/-- `TransactionCard`: `currentUserId in transaction.votes`. -/
def txCardUserHasVoted (t : Transaction) (uid : String) : Bool :=
  t.votes.any (fun p => decide (p.1 = uid))

/-- `TransactionCard` renders the user-vote block exactly when
    `userHasVoted`. -/
def txCardShowUserVote (t : Transaction) (uid : String) : Bool :=
  txCardUserHasVoted t uid

/-- `TransactionCard` renders the approve/reject buttons on the guard
    `transaction.status === 'pending' && !userHasVoted && onVote`; the
    `onVote` prop is optional, so its presence is an input. -/
def txCardShowVoteButtons (t : Transaction) (uid : String)
    (hasOnVote : Bool) : Bool :=
  decide (t.status = TxStatus.pending) && !txCardUserHasVoted t uid
    && hasOnVote

/-- `TransactionCard` renders the execute button on the guard
    `transaction.status === 'approved' && onExecute`; the `onExecute` prop
    is optional, so its presence is an input. -/
def txCardShowExecute (t : Transaction) (hasOnExecute : Bool) : Bool :=
  decide (t.status = TxStatus.approved) && hasOnExecute

/-! ## RanchScreen data fetching and action handlers -/

/-- The state update performed by a successful `fetchProposals` (lines
    318-345 of `ranch.tsx`): filter the fetched transactions to the current
    group, then split them into non-executed proposals and the executed
    ledger. -/
structure FetchProposalsResult where
  proposals : List Transaction
  ledger : List Transaction
deriving DecidableEq, Repr

/-- `setProposals`/`setLedger` arguments computed by `fetchProposals` from
    the response field `data.transactions` for group `id`. -/
def fetchProposalsUpdate (id : String) (txns : List Transaction) :
    FetchProposalsResult :=
  let thisGroupTransactions := txns.filter (fun t => decide (t.groupID = id))
  { proposals :=
      thisGroupTransactions.filter
        (fun t => !decide (t.status = TxStatus.executed))
    ledger :=
      thisGroupTransactions.filter
        (fun t => decide (t.status = TxStatus.executed)) }

/-- Observable effects of the `RanchScreen` action handlers: alert dialogs
    and the refetches that are the only ways these handlers touch screen
    state (`proposals`, `ledger`, balances, members). -/
inductive RanchEffect
  | alert (title msg : String)
  | refetchProposals
  | refetchGroupData
  | refetchPersonalBalance
deriving DecidableEq, Repr

/-- Outcome of the `fetch` inside a handler: an ok response, a non-ok
    response whose JSON body is an error object, or a thrown network
    error. -/
inductive FetchOutcome
  | ok
  | httpError (e : ErrorBody)
  | networkError
deriving DecidableEq, Repr

/-- The vote string interpolated into the success alert of `handleVote`. -/
def voteWord (v : Vote) : String :=
  match v with
  | Vote.approve => "approve"
  | Vote.reject => "reject"

/-- `handleVote` (lines 871-899 of `ranch.tsx`) as a function from the
    fetch outcome to its effects. -/
def handleVote (vote : Vote) (outcome : FetchOutcome) : List RanchEffect :=
  match outcome with
  | .ok =>
      [RanchEffect.alert "Vote Recorded"
        ("You voted to " ++ voteWord vote ++ " this proposal"),
       RanchEffect.refetchProposals,
       RanchEffect.refetchGroupData]
  | .httpError e =>
      [RanchEffect.alert "Error" (jsOrElse e.detail "Failed to vote")]
  | .networkError =>
      [RanchEffect.alert "Error" "Network error occurred"]

/-- `handleExecute` (lines 902-936 of `ranch.tsx`) as a function from the
    auth-token presence and the fetch outcome to its effects. -/
def handleExecute (hasAuthToken : Bool) (outcome : FetchOutcome) :
    List RanchEffect :=
  if !hasAuthToken then
    [RanchEffect.alert "Error" "Not authenticated. Please log in again."]
  else
    match outcome with
    | .ok =>
        [RanchEffect.alert "Success! 🎉" "Transaction executed successfully!",
         RanchEffect.refetchProposals,
         RanchEffect.refetchGroupData,
         RanchEffect.refetchPersonalBalance]
    | .httpError e =>
        [RanchEffect.alert "Error" (jsOrElse e.detail "Failed to execute")]
    | .networkError =>
        [RanchEffect.alert "Error" "Network error occurred"]

/-! ## Presentational components (`src/unnamed/part_002`, `src/unnamed/part_005`) -/

/-- One entry of the `investments` array of `RanchPieChart`: key, value and
    color. -/
structure LegendEntry where
  key : String
  value : ℚ
  color : String
deriving DecidableEq, Repr

/-- A rendered pie segment: the legend entry plus the start and end angles
    handed to `createArcPath` (measured here in fractions of a full turn;
    the SVG path string is a fixed function of these numbers). -/
structure PieSegment where
  entry : LegendEntry
  startTurn : ℚ
  endTurn : ℚ
deriving DecidableEq, Repr

/-- The three possible renders of `RanchPieChart`: a single full circle, the
    empty-state text, or a list of segments with a legend. -/
inductive PieChartView
  | single (entry : LegendEntry)
  | emptyState
  | multi (segments : List PieSegment) (legend : List LegendEntry)
deriving DecidableEq, Repr

/-- Accumulating angle walk of the `investments.map` inside the multi-slice
    branch: each value contributes `value / totalAssets` of a turn starting
    at the running angle. -/
def pieSegments (totalAssets : ℚ) (currentTurn : ℚ) :
    List LegendEntry → List PieSegment
  | [] => []
  | inv :: rest =>
      { entry := inv
        startTurn := currentTurn
        endTurn := currentTurn + inv.value / totalAssets }
        :: pieSegments totalAssets (currentTurn + inv.value / totalAssets) rest

/-- `RanchPieChart` (`src/unnamed/part_002`): filters the two candidate
    entries to positive values, then branches on a single entry, the empty
    state (`totalAssets === 0 || investments.length === 0`), and the general
    multi-slice render. -/
def ranchPieChart (ranchBalance investedAmount totalAssets : ℚ) :
    PieChartView :=
  let investments :=
    [LegendEntry.mk "Liquid Cash" ranchBalance "#FBBF24",
     LegendEntry.mk "Invested" investedAmount "#10B981"].filter
      (fun inv => decide (0 < inv.value))
  if h : investments.length = 1 then
    PieChartView.single (investments.get ⟨0, by omega⟩)
  else if totalAssets = 0 ∨ investments.length = 0 then
    PieChartView.emptyState
  else
    PieChartView.multi (pieSegments totalAssets 0 investments) investments

/-- The `RanchBalance` record rendered by `BalanceSection`
    (`src/unnamed/part_005`). -/
structure RanchBalance where
  ranchBalance : ℚ
  investedAmount : ℚ
  totalAssets : ℚ
  personalBalance : ℚ
deriving DecidableEq, Repr

/-- The four labelled rows `BalanceSection` renders. -/
structure BalanceView where
  liquidCash : ℚ
  invested : ℚ
  totalAssets : ℚ
  personalBalance : ℚ
deriving DecidableEq, Repr

/-- `BalanceSection`: renders the four fields of its `balance` prop, in
    order, with fixed labels. -/
def balanceSection (balance : RanchBalance) : BalanceView :=
  { liquidCash := balance.ranchBalance
    invested := balance.investedAmount
    totalAssets := balance.totalAssets
    personalBalance := balance.personalBalance }

/-! ## AuthContext (`src/contexts/AuthContext.tsx`) -/

/-- The five state cells of `AuthProvider`. -/
structure AuthState where
  isAuthenticated : Bool
  isLoading : Bool
  token : Option String
  userId : Option String
  username : Option String
deriving DecidableEq, Repr

/-- The `useState` initial values. -/
def initialAuthState : AuthState :=
  { isAuthenticated := false
    isLoading := true
    token := none
    userId := none
    username := none }

/-- JS truthiness of a nullable string: `null` and `""` are falsy. -/
def jsTruthy (s : Option String) : Bool :=
  match s with
  | none => false
  | some s => decide (s ≠ "")

/-- The three `SecureStore` reads of `checkAuth`. -/
structure StoredAuth where
  authToken : Option String
  userId : Option String
  username : Option String
deriving DecidableEq, Repr

/-- `checkAuth`: when the reads succeed and both `storedToken` and
    `storedUserId` are truthy, install them and set `isAuthenticated`;
    when a read throws (`stored = none`) nothing is installed; either way
    the `finally` block clears `isLoading`. -/
def checkAuth (stored : Option StoredAuth) (s : AuthState) : AuthState :=
  match stored with
  | none => { s with isLoading := false }
  | some st =>
      if jsTruthy st.authToken && jsTruthy st.userId then
        { s with
            token := st.authToken
            userId := st.userId
            username := st.username
            isAuthenticated := true
            isLoading := false }
      else
        { s with isLoading := false }

/-- `login`: when the `SecureStore` writes succeed, install the new
    credentials and set `isAuthenticated`; when a write throws
    (`writesOk = false`) the function rethrows before any state update. -/
def login (writesOk : Bool) (newToken newUserId newUsername : String)
    (s : AuthState) : AuthState :=
  if writesOk then
    { s with
        token := some newToken
        userId := some newUserId
        username := some newUsername
        isAuthenticated := true }
  else s

/-- `logout`: when the `SecureStore` deletes succeed, clear the credentials
    and `isAuthenticated`; when a delete throws the function rethrows
    before any state update. -/
def logout (deletesOk : Bool) (s : AuthState) : AuthState :=
  if deletesOk then
    { s with
        token := none
        userId := none
        username := none
        isAuthenticated := false }
  else s

/-- The invariant of claim C8: an authenticated state carries both a token
    and a user id. -/
def AuthInvariant (s : AuthState) : Prop :=
  s.isAuthenticated = true → s.token.isSome = true ∧ s.userId.isSome = true

/-! ## CreateTransactionModal (`src/components/StockTradingModal.tsx`) -/

/-- Observable effects of `CreateTransactionModal.handleSubmit`: error
    alerts, the exceeds-balance warning alert (carrying the two amounts it
    interpolates), the `onSubmit` call, the form reset plus `onClose`, and
    the success alert. -/
inductive SubmitEffect
  | errorAlert (msg : String)
  | warnExceeds (amount groupBalance : ℚ)
  | submitCall (description : String) (amount : ℚ)
  | resetAndClose
  | successAlert
deriving DecidableEq, Repr

/-- JS `String.prototype.trim`: strip leading and trailing whitespace,
    modelled on the character list. -/
def jsTrim (s : String) : String :=
  String.mk
    (((s.data.dropWhile Char.isWhitespace).reverse.dropWhile
      Char.isWhitespace).reverse)

/-- `handleSubmit` (lines 498-533): `description` is the raw text state,
    `parsedAmount` is the result of `parseFloat(amount)` with `none` for
    `NaN`, and `submitError` is `none` when the awaited `onSubmit` resolves
    and the caught error message otherwise. The guard
    `!numAmount || numAmount <= 0` rejects `NaN`, `0` and negatives, i.e.
    exactly the values not strictly positive. -/
def handleSubmit (description : String) (parsedAmount : Option ℚ)
    (groupBalance : ℚ) (submitError : Option String) : List SubmitEffect :=
  if jsTrim description = "" then
    [SubmitEffect.errorAlert "Please enter a description"]
  else
    match parsedAmount with
    | none =>
        [SubmitEffect.errorAlert "Please enter a valid amount greater than 0"]
    | some numAmount =>
        if numAmount ≤ 0 then
          [SubmitEffect.errorAlert
            "Please enter a valid amount greater than 0"]
        else
          (if groupBalance < numAmount then
            [SubmitEffect.warnExceeds numAmount groupBalance]
          else [])
          ++ [SubmitEffect.submitCall description numAmount]
          ++ (match submitError with
              | none => [SubmitEffect.resetAndClose, SubmitEffect.successAlert]
              | some m => [SubmitEffect.errorAlert m])

/-! ## Shared helper lemmas and sample inputs -/

/-- Kernel arithmetic for the JS quorum threshold:
    `Math.ceil(n / 2) = (n + 1) / 2` in natural division. -/
theorem ceil_half_nat (n : ℕ) : (⌈(n : ℚ) / 2⌉ : ℤ) = ((n + 1) / 2 : ℕ) := by
  rcases Nat.even_or_odd n with ⟨k, hk⟩ | ⟨k, hk⟩ <;> subst hk
  · have h : ((k + k : ℕ) : ℚ) / 2 = (k : ℚ) := by push_cast; ring
    rw [h, Int.ceil_natCast]
    omega
  · have h : ((2 * k + 1 : ℕ) : ℚ) / 2 = (k : ℚ) + 1 / 2 := by push_cast; ring
    rw [h, show ((2 * k + 1 + 1) / 2 : ℕ) = k + 1 by omega]
    rw [Int.ceil_eq_iff]
    push_cast
    constructor
    · linarith
    · linarith

/-- Key membership via `List.any` agrees with existence of an entry. -/
theorem votes_any_iff (l : List (String × Vote)) (uid : String) :
    (l.any fun q => decide (q.1 = uid)) = true ↔ ∃ v, (uid, v) ∈ l := by
  rw [List.any_eq_true]
  constructor
  · rintro ⟨x, hx, hp⟩
    simp only [decide_eq_true_eq] at hp
    exact ⟨x.2, by rw [← hp]; exact hx⟩
  · rintro ⟨v, hv⟩
    exact ⟨(uid, v), hv, by simp⟩

/-- Definedness of `votesLookup` agrees with existence of an entry. -/
theorem votesLookup_isSome_iff (l : List (String × Vote)) (uid : String) :
    (votesLookup l uid).isSome = true ↔ ∃ v, (uid, v) ∈ l := by
  rw [votesLookup, Option.isSome_map', List.find?_isSome]
  constructor
  · rintro ⟨x, hx, hp⟩
    simp only [decide_eq_true_eq] at hp
    exact ⟨x.2, by rw [← hp]; exact hx⟩
  · rintro ⟨v, hv⟩
    exact ⟨(uid, v), hv, by simp⟩

/-- The approval tally is a `countP` over the votes list. -/
theorem countApprove_eq_countP (votes : List (String × Vote)) :
    countApprove votes = votes.countP (fun p => decide (p.2 = Vote.approve)) := by
  rw [countApprove, List.countP_eq_length_filter]

/-- The rejection tally is a `countP` over the votes list. -/
theorem countReject_eq_countP (votes : List (String × Vote)) :
    countReject votes = votes.countP (fun p => decide (p.2 = Vote.reject)) := by
  rw [countReject, List.countP_eq_length_filter]

/-- Closed form of the votes-remaining figure of the ranch screen. -/
theorem ranchVoteInfo_votesRemaining (t : Transaction) (memberCount : ℕ) :
    (ranchVoteInfo t memberCount).votesRemaining
      = (((memberCount + 1) / 2 - countApprove t.votes : ℕ) : ℤ) := by
  show max 0 (⌈(memberCount : ℚ) / 2⌉ - countApprove t.votes)
    = (((memberCount + 1) / 2 - countApprove t.votes : ℕ) : ℤ)
  rw [ceil_half_nat]
  omega

/-- Behaviour of the translation of `error.detail || fallback`. -/
theorem jsOrElse_contract (d : Option String) (fb : String) :
    (∀ s, d = some s → s ≠ "" → jsOrElse d fb = s)
      ∧ ((d = none ∨ d = some "") → jsOrElse d fb = fb) := by
  constructor
  · intro s hs hne
    subst hs
    simp [jsOrElse, hne]
  · rintro (h | h) <;> subst h <;> simp [jsOrElse]

/-- A concrete pending proposal with an empty votes object. -/
def txPendingNoVotes : Transaction :=
  { transactionID := "tx-1"
    groupID := "g-1"
    userID := "u-1"
    amount := "100"
    description := "Buy hay"
    status := TxStatus.pending
    votes := []
    createdAt := "2025-01-01T00:00:00Z" }

/-- A concrete approved proposal. -/
def txApproved : Transaction :=
  { transactionID := "tx-2"
    groupID := "g-1"
    userID := "u-1"
    amount := "250"
    description := "Buy feed"
    status := TxStatus.approved
    votes := [("u-1", Vote.approve), ("u-2", Vote.approve)]
    createdAt := "2025-01-02T00:00:00Z" }

/-- A concrete executed transaction of the same group. -/
def txExecuted : Transaction :=
  { transactionID := "tx-3"
    groupID := "g-1"
    userID := "u-2"
    amount := "75"
    description := "Buy rope"
    status := TxStatus.executed
    votes := [("u-1", Vote.approve), ("u-2", Vote.approve)]
    createdAt := "2025-01-03T00:00:00Z"
    executedAt := some "2025-01-04T00:00:00Z" }

/-- A concrete transaction of a different group. -/
def txOtherGroup : Transaction :=
  { transactionID := "tx-4"
    groupID := "g-2"
    userID := "u-3"
    amount := "10"
    description := "Other ranch"
    status := TxStatus.pending
    votes := []
    createdAt := "2025-01-05T00:00:00Z" }

/-- A concrete balance record. -/
def balanceSample : RanchBalance :=
  { ranchBalance := 100
    investedAmount := 50
    totalAssets := 150
    personalBalance := 20 }

/-! ## Claim C1 -/

/-- C1 counterexample. The claim states that the votes-remaining figure
    shown for a proposal is a value delivered by the backend and that the
    client performs no quorum-threshold or tally computation of its own.
    Were that so, the figure would be a function of the delivered proposal
    record alone. The ranch screen renders, for one and the same delivered
    proposal record (pending, no votes), the figure 1 in a 2-member group
    and the figure 5 in a 10-member group: the figure is computed
    client-side as `Math.max(0, Math.ceil(memberCount / 2) - approveCount)`
    rather than delivered, refuting the claim at this concrete input. -/
theorem votesRemaining_not_backend_delivered :
    (ranchVoteInfo txPendingNoVotes 2).votesRemaining = 1
      ∧ (ranchVoteInfo txPendingNoVotes 10).votesRemaining = 5
      ∧ (ranchVoteInfo txPendingNoVotes 2).votesRemaining
          ≠ (ranchVoteInfo txPendingNoVotes 10).votesRemaining := by
  have h2 := ranchVoteInfo_votesRemaining txPendingNoVotes 2
  have h10 := ranchVoteInfo_votesRemaining txPendingNoVotes 10
  have hc : countApprove txPendingNoVotes.votes = 0 := rfl
  rw [hc] at h2 h10
  refine ⟨by rw [h2]; decide, by rw [h10]; decide, by rw [h2, h10]; decide⟩

/-- C1, amended: the approval and rejection counts shown by `ProposalCard`
    and by the ranch screen are tallied client-side from the
    server-provided votes object (they equal a `countP` over its entries),
    and the votes-remaining figure is computed client-side from the group
    member count by the quorum formula
    `max 0 (⌈memberCount / 2⌉ - approveCount)`, in natural division
    `(memberCount + 1) / 2` truncated-minus the approval tally. Only the
    status string is rendered as delivered. -/
theorem client_side_tally_and_quorum (t : Transaction) (memberCount : ℕ) :
    (proposalCardVoteCounts t).approvalCount
        = t.votes.countP (fun p => decide (p.2 = Vote.approve))
      ∧ (proposalCardVoteCounts t).rejectCount
          = t.votes.countP (fun p => decide (p.2 = Vote.reject))
      ∧ (ranchVoteInfo t memberCount).approveCount
          = t.votes.countP (fun p => decide (p.2 = Vote.approve))
      ∧ (ranchVoteInfo t memberCount).rejectCount
          = t.votes.countP (fun p => decide (p.2 = Vote.reject))
      ∧ (ranchVoteInfo t memberCount).votesRemaining
          = (((memberCount + 1) / 2
              - t.votes.countP (fun p => decide (p.2 = Vote.approve)) : ℕ) : ℤ) := by
  refine ⟨countApprove_eq_countP t.votes, countReject_eq_countP t.votes,
    countApprove_eq_countP t.votes, countReject_eq_countP t.votes, ?_⟩
  rw [ranchVoteInfo_votesRemaining, countApprove_eq_countP]

/-- C1 witness: the amended statement evaluated on a concrete proposal in a
    3-member group. -/
theorem client_side_tally_and_quorum_witness :
    (ranchVoteInfo txApproved 3).votesRemaining
      = (((3 + 1) / 2
          - txApproved.votes.countP (fun p => decide (p.2 = Vote.approve)) : ℕ) : ℤ) :=
  (client_side_tally_and_quorum txApproved 3).2.2.2.2

/-! ## Claim C2 -/

/-- C2 counterexample. The claim states that on a non-ok response the
    thrown message is the body `detail` field whenever that field is
    present. On the concrete non-ok response whose body is
    `{ detail: "" }` the field is present, yet `getGroupTransactions`
    throws the fallback string, because `error.detail || fallback` tests
    truthiness, not presence: the empty string is falsy. -/
theorem api_wrapper_empty_detail_uses_fallback :
    getGroupTransactions (ApiResponse.err ⟨some ""⟩)
        = Except.error "Failed to fetch transactions"
      ∧ getGroupTransactions (ApiResponse.err ⟨some ""⟩)
          ≠ (Except.error "" : Except String (List Transaction))
      ∧ (some "" : Option String) ≠ none := by
  refine ⟨rfl, ?_, by simp⟩
  intro h
  simp [getGroupTransactions, jsOrElse] at h

/-- C2, amended: every transaction API wrapper returns an error exactly on
    a non-ok response; the error message is the body `detail` field when
    that field is present and truthy (non-empty), and the fixed
    operation-specific fallback string when the field is absent or the
    empty string; on an ok response each wrapper returns its payload
    without error. -/
theorem api_wrapper_error_contract (e : ErrorBody)
    (pts : TransactionsPayload) (pt : TransactionPayload)
    (ct : CreateTransactionResult) (vr : VoteResponse) (er : ExecuteResponse) :
    (∀ s, e.detail = some s → s ≠ "" →
      getGroupTransactions (ApiResponse.err e) = Except.error s
        ∧ getTransactionHistory (ApiResponse.err e) = Except.error s
        ∧ getTransaction (ApiResponse.err e) = Except.error s
        ∧ createTransaction (ApiResponse.err e) = Except.error s
        ∧ voteOnTransaction (ApiResponse.err e) = Except.error s
        ∧ executeTransaction (ApiResponse.err e) = Except.error s)
      ∧ ((e.detail = none ∨ e.detail = some "") →
        getGroupTransactions (ApiResponse.err e)
            = Except.error "Failed to fetch transactions"
          ∧ getTransactionHistory (ApiResponse.err e)
              = Except.error "Failed to fetch transaction history"
          ∧ getTransaction (ApiResponse.err e)
              = Except.error "Failed to fetch transaction"
          ∧ createTransaction (ApiResponse.err e)
              = Except.error "Failed to create transaction"
          ∧ voteOnTransaction (ApiResponse.err e)
              = Except.error "Failed to vote on transaction"
          ∧ executeTransaction (ApiResponse.err e)
              = Except.error "Failed to execute transaction")
      ∧ getGroupTransactions (ApiResponse.ok pts) = Except.ok pts.transactions
      ∧ getTransactionHistory (ApiResponse.ok pts) = Except.ok pts.transactions
      ∧ getTransaction (ApiResponse.ok pt) = Except.ok pt.transaction
      ∧ createTransaction (ApiResponse.ok ct) = Except.ok ct
      ∧ voteOnTransaction (ApiResponse.ok vr) = Except.ok vr
      ∧ executeTransaction (ApiResponse.ok er) = Except.ok er := by
  refine ⟨?_, ?_, rfl, rfl, rfl, rfl, rfl, rfl⟩
  · intro s hs hne
    repeat' constructor
    all_goals
      simp only [getGroupTransactions, getTransactionHistory, getTransaction,
        createTransaction, voteOnTransaction, executeTransaction]
      rw [(jsOrElse_contract e.detail _).1 s hs hne]
  · intro h
    repeat' constructor
    all_goals
      simp only [getGroupTransactions, getTransactionHistory, getTransaction,
        createTransaction, voteOnTransaction, executeTransaction]
      rw [(jsOrElse_contract e.detail _).2 h]

/-- C2 witness: the amended contract evaluated on a concrete non-ok
    response carrying `{ detail: "Insufficient funds" }`. -/
theorem api_wrapper_error_contract_witness :
    getGroupTransactions (ApiResponse.err ⟨some "Insufficient funds"⟩)
      = Except.error "Insufficient funds" :=
  ((api_wrapper_error_contract ⟨some "Insufficient funds"⟩
    ⟨[]⟩ ⟨txPendingNoVotes⟩ ⟨"t", "m", "s"⟩
    ⟨"m", "s", [], 0, 0, 0⟩ ⟨"m", "t", 0, 0, 0, "s"⟩).1
    "Insufficient funds" rfl (by decide)).1

/-! ## Claim C3 -/

/-- C3: every transaction API wrapper issues its request to the documented
    endpoint with the documented method, the read wrappers issue GETs,
    `createTransaction` POSTs to `/transactions`,
    `voteOnTransaction` POSTs to `/transactions/{id}/vote` with body
    `{ vote }`, `executeTransaction` POSTs to
    `/transactions/{id}/execute`, and every request carries the header
    `Authorization: Bearer <token>` built from the token argument. -/
theorem api_wrapper_requests_spec (groupId token transactionId : String)
    (request : CreateTransactionRequest) (vote : Vote) :
    getGroupTransactionsRequest groupId token
        = { url := "http://localhost:8080/transactions?groupId=" ++ groupId
            method := "GET"
            headers := [("Authorization", "Bearer " ++ token)]
            body := RequestBody.empty }
      ∧ getTransactionHistoryRequest token
          = { url := "http://localhost:8080/transactions/history/me"
              method := "GET"
              headers := [("Authorization", "Bearer " ++ token)]
              body := RequestBody.empty }
      ∧ getTransactionRequest transactionId token
          = { url := "http://localhost:8080/transactions/" ++ transactionId
              method := "GET"
              headers := [("Authorization", "Bearer " ++ token)]
              body := RequestBody.empty }
      ∧ createTransactionHttpRequest request token
          = { url := "http://localhost:8080/transactions"
              method := "POST"
              headers := [("Content-Type", "application/json"),
                          ("Authorization", "Bearer " ++ token)]
              body := RequestBody.createTx request }
      ∧ voteOnTransactionRequest transactionId vote token
          = { url := "http://localhost:8080/transactions/" ++ transactionId
                      ++ "/vote"
              method := "POST"
              headers := [("Content-Type", "application/json"),
                          ("Authorization", "Bearer " ++ token)]
              body := RequestBody.voteBody vote }
      ∧ executeTransactionRequest transactionId token
          = { url := "http://localhost:8080/transactions/" ++ transactionId
                      ++ "/execute"
              method := "POST"
              headers := [("Authorization", "Bearer " ++ token)]
              body := RequestBody.empty }
      ∧ ("Authorization", "Bearer " ++ token)
          ∈ (getGroupTransactionsRequest groupId token).headers
      ∧ ("Authorization", "Bearer " ++ token)
          ∈ (getTransactionHistoryRequest token).headers
      ∧ ("Authorization", "Bearer " ++ token)
          ∈ (getTransactionRequest transactionId token).headers
      ∧ ("Authorization", "Bearer " ++ token)
          ∈ (createTransactionHttpRequest request token).headers
      ∧ ("Authorization", "Bearer " ++ token)
          ∈ (voteOnTransactionRequest transactionId vote token).headers
      ∧ ("Authorization", "Bearer " ++ token)
          ∈ (executeTransactionRequest transactionId token).headers := by
  refine ⟨rfl, rfl, rfl, rfl, rfl, rfl, ?_, ?_, ?_, ?_, ?_, ?_⟩
  all_goals simp [getGroupTransactionsRequest, getTransactionHistoryRequest,
    getTransactionRequest, createTransactionHttpRequest,
    voteOnTransactionRequest, executeTransactionRequest]

/-- C3 witness: the request shapes evaluated at concrete arguments. -/
theorem api_wrapper_requests_spec_witness :
    voteOnTransactionRequest "tx-1" Vote.approve "tok"
      = { url := "http://localhost:8080/transactions/" ++ "tx-1" ++ "/vote"
          method := "POST"
          headers := [("Content-Type", "application/json"),
                      ("Authorization", "Bearer " ++ "tok")]
          body := RequestBody.voteBody Vote.approve } :=
  (api_wrapper_requests_spec "g-1" "tok" "tx-1"
    ⟨"g-1", 100, "Buy hay"⟩ Vote.approve).2.2.2.2.1

/-! ## Claim C4 -/

/-- C4 counterexample. The claim states that in every proposal-rendering
    component the execute control is rendered if and only if the status is
    `approved`. In `TransactionCard` the `onExecute` prop is optional and
    the guard is `status === 'approved' && onExecute`: rendering
    a concrete approved transaction without an `onExecute` handler renders
    no execute control, refuting the if direction. -/
theorem execute_button_missing_handler :
    txCardShowExecute txApproved false = false
      ∧ txApproved.status = TxStatus.approved := by
  exact ⟨rfl, rfl⟩

/-- C4, amended: in every proposal-rendering component the execute control
    is rendered only if the status is `approved` — so the UI never issues
    an execute request for a pending, rejected or executed proposal — and
    conversely an approved proposal always shows the control in
    `ProposalCard` and the ranch screen, while `TransactionCard` shows it
    exactly when the status is `approved` and an `onExecute` handler is
    supplied. -/
theorem execute_button_only_for_approved (t : Transaction)
    (hasOnExecute : Bool) :
    (proposalCardShowExecute t = true ↔ t.status = TxStatus.approved)
      ∧ (ranchShowExecute t = true ↔ t.status = TxStatus.approved)
      ∧ (txCardShowExecute t hasOnExecute = true
          ↔ (t.status = TxStatus.approved ∧ hasOnExecute = true)) := by
  simp [proposalCardShowExecute, ranchShowExecute, txCardShowExecute]

/-- C4 witness: the amended statement evaluated on a concrete approved
    proposal with a handler present. -/
theorem execute_button_only_for_approved_witness :
    txCardShowExecute txApproved true = true :=
  (execute_button_only_for_approved txApproved true).2.2.mpr
    ⟨rfl, rfl⟩

/-! ## Claim C5 -/

/-- C5 counterexample. The claim states that in every proposal-rendering
    component the approve/reject buttons are rendered if and only if the
    proposal is pending and the current user has not voted. In
    `TransactionCard` the `onVote` prop is optional and the guard is
    `status === 'pending' && !userHasVoted && onVote`: rendering a concrete
    pending proposal with an empty votes object but no `onVote` handler
    renders no vote buttons, refuting the if direction. -/
theorem vote_buttons_missing_handler :
    txCardShowVoteButtons txPendingNoVotes "u-1" false = false
      ∧ txPendingNoVotes.status = TxStatus.pending
      ∧ txPendingNoVotes.votes = [] := by
  exact ⟨rfl, rfl, rfl⟩

/-- C5, amended: `ProposalCard` and the ranch screen render the
    approve/reject buttons exactly when the proposal is pending and the
    current user id has no entry in the votes object, and render the
    recorded-vote text exactly when the user has an entry (the two are
    mutually exclusive); `TransactionCard` does the same except that the
    buttons additionally require an `onVote` handler to be supplied. In
    the ranch screen the user id is the authenticated id, with `""` looked
    up while it is still `null`. -/
theorem vote_buttons_pending_not_voted (t : Transaction) (uid : String)
    (currentUserId : Option String) (hasOnVote : Bool) :
    (proposalCardShowVoteButtons t uid = true
        ↔ (t.status = TxStatus.pending ∧ ¬∃ v, (uid, v) ∈ t.votes))
      ∧ (proposalCardShowVotedText t uid = true ↔ ∃ v, (uid, v) ∈ t.votes)
      ∧ (ranchShowVoteButtons t currentUserId = true
          ↔ (t.status = TxStatus.pending
              ∧ ¬∃ v, (currentUserId.getD "", v) ∈ t.votes))
      ∧ (ranchShowVotedText t currentUserId = true
          ↔ ∃ v, (currentUserId.getD "", v) ∈ t.votes)
      ∧ (txCardShowVoteButtons t uid hasOnVote = true
          ↔ (t.status = TxStatus.pending ∧ (¬∃ v, (uid, v) ∈ t.votes)
              ∧ hasOnVote = true))
      ∧ (txCardShowUserVote t uid = true ↔ ∃ v, (uid, v) ∈ t.votes) := by
  have hpc := votes_any_iff t.votes uid
  have hr := votesLookup_isSome_iff t.votes (currentUserId.getD "")
  constructor
  · rw [proposalCardShowVoteButtons, Bool.and_eq_true, Bool.not_eq_true',
      decide_eq_true_eq, proposalCardHasVoted]
    rw [← Bool.not_eq_true (t.votes.any fun p => decide (p.1 = uid)), hpc]
    tauto
  constructor
  · rw [proposalCardShowVotedText, proposalCardHasVoted, hpc]
  constructor
  · rw [ranchShowVoteButtons, Bool.and_eq_true, Bool.not_eq_true',
      decide_eq_true_eq]
    rw [show ranchUserVote t currentUserId
        = votesLookup t.votes (currentUserId.getD "") from rfl] at *
    rw [← Bool.not_eq_true
      (votesLookup t.votes (currentUserId.getD "")).isSome, hr]
    tauto
  constructor
  · rw [ranchShowVotedText,
      show ranchUserVote t currentUserId
        = votesLookup t.votes (currentUserId.getD "") from rfl, hr]
  constructor
  · rw [txCardShowVoteButtons, Bool.and_eq_true, Bool.and_eq_true,
      Bool.not_eq_true', decide_eq_true_eq, txCardUserHasVoted]
    rw [← Bool.not_eq_true (t.votes.any fun p => decide (p.1 = uid)), hpc]
    tauto
  · rw [txCardShowUserVote, txCardUserHasVoted, hpc]

/-- C5 witness: the amended statement evaluated on a concrete pending
    proposal, an unvoted user and a supplied handler. -/
theorem vote_buttons_pending_not_voted_witness :
    txCardShowVoteButtons txPendingNoVotes "u-1" true = true :=
  (vote_buttons_pending_not_voted txPendingNoVotes "u-1" (some "u-1")
    true).2.2.2.2.1.mpr ⟨rfl, by rintro ⟨v, hv⟩; simp [txPendingNoVotes] at hv,
      rfl⟩

/-! ## Claim C6 -/

/-- C6: on a failed (non-ok) vote or execute request, the ranch screen
    handler produces exactly one effect — an alert dialog showing the
    server `detail` string when present and truthy, and the fixed fallback
    otherwise — and performs none of the refetches that are the only ways
    these handlers touch the local screen state (proposals, ledger,
    balances, member list), so that state is left unchanged. -/
theorem handlers_error_path_alert_only (v : Vote) (e : ErrorBody) :
    (∃ m, handleVote v (FetchOutcome.httpError e)
          = [RanchEffect.alert "Error" m]
        ∧ (∀ s, e.detail = some s → s ≠ "" → m = s)
        ∧ ((e.detail = none ∨ e.detail = some "") → m = "Failed to vote"))
      ∧ RanchEffect.refetchProposals ∉ handleVote v (FetchOutcome.httpError e)
      ∧ RanchEffect.refetchGroupData ∉ handleVote v (FetchOutcome.httpError e)
      ∧ RanchEffect.refetchPersonalBalance
          ∉ handleVote v (FetchOutcome.httpError e)
      ∧ (∃ m, handleExecute true (FetchOutcome.httpError e)
            = [RanchEffect.alert "Error" m]
          ∧ (∀ s, e.detail = some s → s ≠ "" → m = s)
          ∧ ((e.detail = none ∨ e.detail = some "") → m = "Failed to execute"))
      ∧ RanchEffect.refetchProposals
          ∉ handleExecute true (FetchOutcome.httpError e)
      ∧ RanchEffect.refetchGroupData
          ∉ handleExecute true (FetchOutcome.httpError e)
      ∧ RanchEffect.refetchPersonalBalance
          ∉ handleExecute true (FetchOutcome.httpError e) := by
  refine ⟨⟨jsOrElse e.detail "Failed to vote", rfl,
      (jsOrElse_contract e.detail "Failed to vote").1,
      (jsOrElse_contract e.detail "Failed to vote").2⟩,
    by simp [handleVote], by simp [handleVote], by simp [handleVote],
    ⟨jsOrElse e.detail "Failed to execute", rfl,
      (jsOrElse_contract e.detail "Failed to execute").1,
      (jsOrElse_contract e.detail "Failed to execute").2⟩,
    by simp [handleExecute], by simp [handleExecute], by simp [handleExecute]⟩

/-- C6 witness: the error path evaluated on a concrete non-ok response
    with no `detail` field. -/
theorem handlers_error_path_alert_only_witness :
    handleVote Vote.approve (FetchOutcome.httpError ⟨none⟩)
      = [RanchEffect.alert "Error" "Failed to vote"] := by
  obtain ⟨⟨m, hm, _, hfb⟩, _⟩ :=
    handlers_error_path_alert_only Vote.approve ⟨none⟩
  rw [hm, hfb (Or.inl rfl)]

/-! ## Claim C7 -/

/-- C7: `RanchPieChart` and `BalanceSection` are deterministic pure
    renderers. The source components read nothing but their props (no
    hooks, no module state, no ambient input), so they embed as total
    functions of the props; two renders with equal props therefore produce
    identical output, and the output depends on nothing else. -/
theorem presentational_components_deterministic :
    (∀ ranchBalance investedAmount totalAssets
        ranchBalance2 investedAmount2 totalAssets2 : ℚ,
      ranchBalance = ranchBalance2 → investedAmount = investedAmount2 →
      totalAssets = totalAssets2 →
      ranchPieChart ranchBalance investedAmount totalAssets
        = ranchPieChart ranchBalance2 investedAmount2 totalAssets2)
      ∧ (∀ balance balance2 : RanchBalance, balance = balance2 →
          balanceSection balance = balanceSection balance2) := by
  constructor
  · intro a b c a2 b2 c2 h1 h2 h3
    rw [h1, h2, h3]
  · intro p q h
    rw [h]

/-- C7 witness: determinism evaluated at concrete props. -/
theorem presentational_components_deterministic_witness :
    ranchPieChart 100 50 150 = ranchPieChart 100 50 150
      ∧ balanceSection balanceSample = balanceSection balanceSample :=
  ⟨presentational_components_deterministic.1 100 50 150 100 50 150
      rfl rfl rfl,
    presentational_components_deterministic.2 balanceSample balanceSample rfl⟩

/-! ## Claim C8 -/

/-- C8: whenever `isAuthenticated` is true, both `token` and `userId` are
    non-null; the invariant holds in the initial state and is preserved by
    `checkAuth`, `login` and `logout` (on both their success and their
    throwing paths), and after a completed logout `token`, `userId` and
    `username` are all null and `isAuthenticated` is false. -/
theorem auth_invariant_preserved :
    AuthInvariant initialAuthState
      ∧ (∀ stored s, AuthInvariant s → AuthInvariant (checkAuth stored s))
      ∧ (∀ writesOk newToken newUserId newUsername s, AuthInvariant s →
          AuthInvariant (login writesOk newToken newUserId newUsername s))
      ∧ (∀ deletesOk s, AuthInvariant s → AuthInvariant (logout deletesOk s))
      ∧ (∀ s, (logout true s).token = none ∧ (logout true s).userId = none
          ∧ (logout true s).username = none
          ∧ (logout true s).isAuthenticated = false) := by
  refine ⟨fun h => Bool.noConfusion h, ?_, ?_, ?_, fun s => ⟨rfl, rfl, rfl, rfl⟩⟩
  · intro stored s hs
    cases stored with
    | none => exact fun h => hs h
    | some st =>
        rw [checkAuth]
        by_cases hcond : (jsTruthy st.authToken && jsTruthy st.userId) = true
        · rw [if_pos hcond]
          intro _
          rw [Bool.and_eq_true] at hcond
          constructor
          · cases h : st.authToken with
            | none => rw [h] at hcond; exact Bool.noConfusion hcond.1
            | some tk => rfl
          · cases h : st.userId with
            | none => rw [h] at hcond; exact Bool.noConfusion hcond.2
            | some uid => rfl
        · rw [if_neg hcond]
          exact fun h => hs h
  · intro ok tk uid un s hs
    rw [login]
    by_cases hok : ok = true
    · rw [if_pos hok]
      exact fun _ => ⟨rfl, rfl⟩
    · rw [if_neg hok]
      exact hs
  · intro ok s hs
    rw [logout]
    by_cases hok : ok = true
    · rw [if_pos hok]
      exact fun h => Bool.noConfusion h
    · rw [if_neg hok]
      exact hs

/-- C8 witness: the invariant evaluated through a concrete login followed
    by a completed logout. -/
theorem auth_invariant_preserved_witness :
    AuthInvariant (login true "tok-1" "u-1" "cowboy" initialAuthState)
      ∧ (logout true (login true "tok-1" "u-1" "cowboy"
          initialAuthState)).isAuthenticated = false :=
  ⟨auth_invariant_preserved.2.2.1 true "tok-1" "u-1" "cowboy"
      initialAuthState (fun h => Bool.noConfusion h),
    (auth_invariant_preserved.2.2.2.2
      (login true "tok-1" "u-1" "cowboy" initialAuthState)).2.2.2⟩

/-! ## Claim C9 -/

/-- C9: after a successful `fetchProposals`, the `proposals` and `ledger`
    states partition the fetched transactions whose `groupID` equals the
    current ranch id — `proposals` holds exactly those with status other
    than executed, `ledger` exactly the executed ones, and a transaction of
    another group is in neither (membership in either forces
    `groupID = id`). -/
theorem fetchProposals_partition (id : String) (txns : List Transaction)
    (t : Transaction) :
    (t ∈ (fetchProposalsUpdate id txns).proposals
        ↔ (t ∈ txns ∧ t.groupID = id ∧ t.status ≠ TxStatus.executed))
      ∧ (t ∈ (fetchProposalsUpdate id txns).ledger
          ↔ (t ∈ txns ∧ t.groupID = id ∧ t.status = TxStatus.executed)) := by
  constructor
  · rw [show (fetchProposalsUpdate id txns).proposals
        = (txns.filter (fun x => decide (x.groupID = id))).filter
            (fun x => !decide (x.status = TxStatus.executed)) from rfl]
    simp only [List.mem_filter, decide_eq_true_eq, Bool.not_eq_true',
      decide_eq_false_iff_not]
    tauto
  · rw [show (fetchProposalsUpdate id txns).ledger
        = (txns.filter (fun x => decide (x.groupID = id))).filter
            (fun x => decide (x.status = TxStatus.executed)) from rfl]
    simp only [List.mem_filter, decide_eq_true_eq]
    tauto

/-- C9 witness: the partition evaluated on a concrete fetched list holding
    a pending proposal, an executed transaction and a transaction of
    another group. -/
theorem fetchProposals_partition_witness :
    txExecuted ∈ (fetchProposalsUpdate "g-1"
        [txPendingNoVotes, txExecuted, txOtherGroup]).ledger
      ∧ txOtherGroup ∉ (fetchProposalsUpdate "g-1"
          [txPendingNoVotes, txExecuted, txOtherGroup]).proposals :=
  ⟨(fetchProposals_partition "g-1" [txPendingNoVotes, txExecuted, txOtherGroup]
      txExecuted).2.mpr ⟨by decide, rfl, rfl⟩,
    fun hmem => by
      have h := (fetchProposals_partition "g-1"
        [txPendingNoVotes, txExecuted, txOtherGroup] txOtherGroup).1.mp hmem
      exact absurd h.2.1 (by decide)⟩

/-! ## Claim C10 -/

/-- C10: `CreateTransactionModal.handleSubmit` invokes
    `onSubmit(description, amount)` if and only if the trimmed description
    is non-empty and the parsed amount is a number strictly greater than 0;
    an amount exceeding the group balance additionally raises the warning
    alert but does not prevent the `onSubmit` call. -/
theorem handleSubmit_validation (description : String)
    (parsedAmount : Option ℚ) (groupBalance : ℚ)
    (submitError : Option String) :
    ((∃ q, SubmitEffect.submitCall description q
          ∈ handleSubmit description parsedAmount groupBalance submitError)
        ↔ (jsTrim description ≠ "" ∧ ∃ q, parsedAmount = some q ∧ 0 < q))
      ∧ (∀ q, parsedAmount = some q → 0 < q → jsTrim description ≠ "" →
          groupBalance < q →
          SubmitEffect.warnExceeds q groupBalance
              ∈ handleSubmit description parsedAmount groupBalance submitError
            ∧ SubmitEffect.submitCall description q
              ∈ handleSubmit description parsedAmount groupBalance
                  submitError) := by
  by_cases hd : jsTrim description = ""
  · unfold handleSubmit
    rw [if_pos hd]
    constructor
    · simp [hd]
    · intro q _ _ hne
      exact absurd hd hne
  · unfold handleSubmit
    rw [if_neg hd]
    cases parsedAmount with
    | none =>
        constructor
        · simp
        · intro q hq
          exact Option.noConfusion hq
    | some q =>
        dsimp only
        by_cases h0 : q ≤ 0
        · rw [if_pos h0]
          constructor
          · simp [hd, h0.not_lt]
          · intro q2 hq2 h02
            rw [Option.some_inj] at hq2
            subst hq2
            exact absurd h02 h0.not_lt
        · rw [if_neg h0]
          push_neg at h0
          constructor
          · constructor
            · intro _
              exact ⟨hd, q, rfl, h0⟩
            · intro _
              exact ⟨q, by simp⟩
          · intro q2 hq2 h02 _ hgb
            rw [Option.some_inj] at hq2
            subst hq2
            constructor
            · rw [if_pos hgb]
              simp
            · rw [if_pos hgb]
              simp

/-- C10 witness: a valid description and an amount exceeding the balance
    still reach `onSubmit`, after the warning alert. -/
theorem handleSubmit_validation_witness :
    SubmitEffect.warnExceeds 5 2 ∈ handleSubmit "Lunch" (some 5) 2 none
      ∧ SubmitEffect.submitCall "Lunch" 5
        ∈ handleSubmit "Lunch" (some 5) 2 none :=
  (handleSubmit_validation "Lunch" (some 5) 2 none).2 5 rfl
    (by norm_num) (by decide) (by norm_num)

end FrontierFund
